import Mathlib

/-!
# SuperiorMySqlpp `Nullable<T>`

Shallow embedding of `include/superior_mysqlpp/types/nullable.hpp`.

A container is the triple of its three data members.  The union slot always
occupies storage, so `payload` is what the slot holds when it is read as a
`StoredType`; while no object has been constructed in it that content is
unspecified, and the constructors that leave the slot untouched take it as an
argument.  Member functions are state-passing functions: a mutator returns the
new state of `*this` (and of `other` when it writes to it).  Two containers
passed to one operation are distinct objects.
-/

namespace SuperiorMySqlpp

/-- Exception `BadNullableAccess` (a `std::logic_error` with its message). -/
structure BadNullableAccess where
  message : String
deriving DecidableEq, Repr

/-- What the template needs to know about `StoredType`:
`std::is_trivially_destructible<StoredType>()`, the state a `StoredType` is left
in after it has been moved from, and its `operator==` and `operator<`. -/
structure StoredTypeOps (T : Type) where
  isTriviallyDestructible : Bool
  movedFrom : T → T
  eq : T → T → Bool
  lt : T → T → Bool

/-- Data members of `Nullable<T>`: the union slot, `engaged` and `null`. -/
structure Nullable (T : Type) where
  payload : T
  engaged : Bool
  null : Bool
deriving DecidableEq, Repr

namespace Nullable

variable {T : Type}

/-! ## Protected helpers (lines 81-107) -/

/-- `destroyPayload()`: the destructor call is skipped for a trivially
destructible `StoredType`; `engaged = false` is executed in every case.  The
destructor ends the lifetime of the object and the embedding keeps the last
content of the slot. -/
def destroyPayload (_ops : StoredTypeOps T) (self : Nullable T) : Nullable T :=
  { self with engaged := false }

/-- `destroyPayloadIfEngaged()`: the whole body, `engaged = false` included, is
inside `if (!std::is_trivially_destructible<StoredType>())`. -/
def destroyPayloadIfEngaged (ops : StoredTypeOps T) (self : Nullable T) : Nullable T :=
  if !ops.isTriviallyDestructible then
    if self.engaged then
      { self with engaged := false }
    else
      self
  else
    self

/-- `constructPayload(args...)`: placement-new of `StoredType{args...}`, whose
value is `v`, then `engaged = true`. -/
def constructPayload (self : Nullable T) (v : T) : Nullable T :=
  { self with payload := v, engaged := true }

/-! ## Constructors (lines 113-177) -/

/-- `Nullable()`: `empty{}, engaged{false}, null{true}`; `slot` is the
unspecified content of the storage. -/
def ctorDefault (slot : T) : Nullable T :=
  { payload := slot, engaged := false, null := true }

/-- `Nullable(DisengagedOption)`: delegates to `Nullable{}`. -/
def ctorDisengaged (slot : T) : Nullable T :=
  ctorDefault slot

/-- `Nullable(const Nullable& other)`. -/
def ctorCopy (slot : T) (other : Nullable T) : Nullable T :=
  let self : Nullable T := { payload := slot, engaged := false, null := false }
  let self :=
    if other.engaged then
      constructPayload self other.payload
    else
      { self with engaged := false }
  { self with null := other.null }

/-- `Nullable(Nullable&& other)`: returns the new container and `other`, whose
payload has been moved from when it was engaged. -/
def ctorMove (ops : StoredTypeOps T) (slot : T) (other : Nullable T) :
    Nullable T × Nullable T :=
  let self : Nullable T := { payload := slot, engaged := false, null := false }
  if other.engaged then
    let self := constructPayload self other.payload
    let other := { other with payload := ops.movedFrom other.payload }
    ({ self with null := other.null }, other)
  else
    ({ self with engaged := false, null := other.null }, other)

/-- `Nullable(const StoredType& value)` and `Nullable(StoredType&& value)`. -/
def ctorValue (value : T) : Nullable T :=
  { payload := value, engaged := true, null := false }

/-- `Nullable(InPlace, Args&&... args)` (and its initializer-list overload):
`payload{args...}, engaged{true}, null{false}`; `ctor args` is
`StoredType{args...}`. -/
def ctorInPlace {A : Type} (ctor : A → T) (args : A) : Nullable T :=
  { payload := ctor args, engaged := true, null := false }

/-! ## Assignment (lines 159-245) -/

/-- `operator=(DisengagedOption)`. -/
def assignDisengaged (ops : StoredTypeOps T) (self : Nullable T) : Nullable T :=
  let self := destroyPayloadIfEngaged ops self
  { self with null := true }

/-- `operator=(const Nullable& other)`. -/
def assignCopy (ops : StoredTypeOps T) (self other : Nullable T) : Nullable T :=
  if self.engaged && other.engaged then
    let self := { self with payload := other.payload }
    { self with null := other.null }
  else
    if other.engaged then
      let self := constructPayload self other.payload
      { self with null := other.null }
    else
      let self := destroyPayload ops self
      { self with null := true }

/-- `operator=(Nullable&& other)`: returns `*this` and `other` after the call. -/
def assignMove (ops : StoredTypeOps T) (self other : Nullable T) :
    Nullable T × Nullable T :=
  if self.engaged && other.engaged then
    let self := { self with payload := other.payload }
    let other := { other with payload := ops.movedFrom other.payload }
    ({ self with null := other.null }, other)
  else
    if other.engaged then
      let self := constructPayload self other.payload
      let other := { other with payload := ops.movedFrom other.payload }
      ({ self with null := other.null }, other)
    else
      let self := destroyPayload ops self
      ({ self with null := true }, other)

/-- `operator=(U&& value)` for a raw value of the stored type. -/
def assignValue (self : Nullable T) (value : T) : Nullable T :=
  let self :=
    if self.engaged then
      { self with payload := value }
    else
      constructPayload self value
  { self with null := false }

/-! ## Observers (lines 262-323) -/

/-- `isValid()`. -/
def isValid (self : Nullable T) : Bool :=
  self.engaged && !self.null

/-- `operator*()`: the unchecked dereference. -/
def deref (self : Nullable T) : T :=
  self.payload

/-- `explicit operator bool()`. -/
def toBool (self : Nullable T) : Bool :=
  isValid self

/-- `value()`: the result (the payload, or the thrown exception) together with
the state of the container after the call. -/
def value (self : Nullable T) : Except BadNullableAccess T × Nullable T :=
  if isValid self then
    (Except.ok self.payload, self)
  else
    (Except.error ⟨"Attempt to access value of a invalid nullable object!"⟩, self)

/-- `valueOr(value)`; `conv value` is `StoredType{std::forward<U>(value)}`. -/
def valueOr {U : Type} (conv : U → T) (self : Nullable T) (value : U) : T :=
  if isValid self then self.payload else conv value

/-! ## Modifiers (lines 329-388) -/

/-- `disengage()`. -/
def disengage (ops : StoredTypeOps T) (self : Nullable T) : Nullable T :=
  let self := destroyPayloadIfEngaged ops self
  { self with null := false }

/-- `unsetNull()`. -/
def unsetNull (self : Nullable T) : Nullable T :=
  { self with null := false }

/-- `setNull()`. -/
def setNull (self : Nullable T) : Nullable T :=
  if self.engaged then
    { self with null := true }
  else
    self

/-- `swap(other)`: returns `*this` and `other` after the call.  In the first
branch the second statement is `::std::swap(null, null)`, which exchanges the
member `null` of `*this` with itself. -/
def swap (ops : StoredTypeOps T) (self other : Nullable T) : Nullable T × Nullable T :=
  if self.engaged && other.engaged then
    let tmp := self.payload
    let self := { self with payload := other.payload }
    let other := { other with payload := tmp }
    let tmpNull := self.null
    let self := { self with null := self.null }
    let self := { self with null := tmpNull }
    (self, other)
  else if self.engaged then
    let other := constructPayload other self.payload
    let self := { self with payload := ops.movedFrom self.payload }
    let self := destroyPayload ops self
    let other := { other with null := self.null }
    let self := { self with null := false }
    (self, other)
  else
    let self := constructPayload self other.payload
    let other := { other with payload := ops.movedFrom other.payload }
    let other := destroyPayload ops other
    let self := { self with null := other.null }
    let other := { other with null := false }
    (self, other)

/-- `emplace(args...)`; `ctor args` is `StoredType{args...}`. -/
def emplace {A : Type} (ops : StoredTypeOps T) (ctor : A → T) (self : Nullable T)
    (args : A) : Nullable T :=
  let self := destroyPayloadIfEngaged ops self
  let self := { self with null := false }
  constructPayload self (ctor args)

/-- `emplace(initializerList, args...)`; `ctor initializerList args` is
`StoredType{initializerList, args...}`. -/
def emplaceList {U A : Type} (ops : StoredTypeOps T) (ctor : List U → A → T)
    (self : Nullable T) (initializerList : List U) (args : A) : Nullable T :=
  let self := destroyPayloadIfEngaged ops self
  let self := { self with null := false }
  constructPayload self (ctor initializerList args)

/-! ## Comparisons between two containers (lines 414-448) -/

/-- `operator==(const Nullable&, const Nullable&)`. -/
def eq (ops : StoredTypeOps T) (lhs rhs : Nullable T) : Bool :=
  (toBool lhs == toBool rhs) && (!toBool lhs || ops.eq (deref lhs) (deref rhs))

/-- `operator!=(const Nullable&, const Nullable&)`. -/
def ne (ops : StoredTypeOps T) (lhs rhs : Nullable T) : Bool :=
  !eq ops lhs rhs

/-- `operator<(const Nullable&, const Nullable&)`. -/
def lt (ops : StoredTypeOps T) (lhs rhs : Nullable T) : Bool :=
  toBool rhs && (!toBool lhs || ops.lt (deref lhs) (deref rhs))

/-- `operator>(const Nullable&, const Nullable&)`. -/
def gt (ops : StoredTypeOps T) (lhs rhs : Nullable T) : Bool :=
  lt ops rhs lhs

/-- `operator<=(const Nullable&, const Nullable&)`. -/
def le (ops : StoredTypeOps T) (lhs rhs : Nullable T) : Bool :=
  !lt ops rhs lhs

/-- `operator>=(const Nullable&, const Nullable&)`. -/
def ge (ops : StoredTypeOps T) (lhs rhs : Nullable T) : Bool :=
  !lt ops lhs rhs

/-! ## Comparisons with the disengaged sentinel (lines 453-523)

The suffix `D` is the side on which the `DisengagedOption` argument stands. -/

/-- `operator==(const Nullable&, DisengagedOption)`. -/
def eqD (lhs : Nullable T) : Bool := !toBool lhs

/-- `operator==(DisengagedOption, const Nullable&)`. -/
def dEq (rhs : Nullable T) : Bool := !toBool rhs

/-- `operator!=(const Nullable&, DisengagedOption)`. -/
def neD (lhs : Nullable T) : Bool := toBool lhs

/-- `operator!=(DisengagedOption, const Nullable&)`. -/
def dNe (rhs : Nullable T) : Bool := toBool rhs

/-- `operator<(const Nullable&, DisengagedOption)`. -/
def ltD (_lhs : Nullable T) : Bool := false

/-- `operator<(DisengagedOption, const Nullable&)`. -/
def dLt (rhs : Nullable T) : Bool := toBool rhs

/-- `operator>(const Nullable&, DisengagedOption)`. -/
def gtD (lhs : Nullable T) : Bool := toBool lhs

/-- `operator>(DisengagedOption, const Nullable&)`. -/
def dGt (_rhs : Nullable T) : Bool := false

/-- `operator<=(const Nullable&, DisengagedOption)`. -/
def leD (lhs : Nullable T) : Bool := !toBool lhs

/-- `operator<=(DisengagedOption, const Nullable&)`. -/
def dLe (_rhs : Nullable T) : Bool := true

/-- `operator>=(const Nullable&, DisengagedOption)`. -/
def geD (_lhs : Nullable T) : Bool := true

/-- `operator>=(DisengagedOption, const Nullable&)`. -/
def dGe (rhs : Nullable T) : Bool := !toBool rhs

/-! ## Comparisons with a raw value (lines 528-598)

The suffix `V` is the side on which the `const T&` argument stands. -/

/-- `operator==(const Nullable&, const T&)`. -/
def eqV (ops : StoredTypeOps T) (lhs : Nullable T) (rhs : T) : Bool :=
  toBool lhs && ops.eq (deref lhs) rhs

/-- `operator==(const T&, const Nullable&)`. -/
def vEq (ops : StoredTypeOps T) (lhs : T) (rhs : Nullable T) : Bool :=
  toBool rhs && ops.eq lhs (deref rhs)

/-- `operator!=(const Nullable&, const T&)`. -/
def neV (ops : StoredTypeOps T) (lhs : Nullable T) (rhs : T) : Bool :=
  !toBool lhs || !ops.eq (deref lhs) rhs

/-- `operator!=(const T&, const Nullable&)`. -/
def vNe (ops : StoredTypeOps T) (lhs : T) (rhs : Nullable T) : Bool :=
  !toBool rhs || !ops.eq lhs (deref rhs)

/-- `operator<(const Nullable&, const T&)`. -/
def ltV (ops : StoredTypeOps T) (lhs : Nullable T) (rhs : T) : Bool :=
  !toBool lhs || ops.lt (deref lhs) rhs

/-- `operator<(const T&, const Nullable&)`. -/
def vLt (ops : StoredTypeOps T) (lhs : T) (rhs : Nullable T) : Bool :=
  toBool rhs && ops.lt lhs (deref rhs)

/-- `operator>(const Nullable&, const T&)`. -/
def gtV (ops : StoredTypeOps T) (lhs : Nullable T) (rhs : T) : Bool :=
  toBool lhs && ops.lt rhs (deref lhs)

/-- `operator>(const T&, const Nullable&)`. -/
def vGt (ops : StoredTypeOps T) (lhs : T) (rhs : Nullable T) : Bool :=
  !toBool rhs || ops.lt (deref rhs) lhs

/-- `operator<=(const Nullable&, const T&)`. -/
def leV (ops : StoredTypeOps T) (lhs : Nullable T) (rhs : T) : Bool :=
  !toBool lhs || !ops.lt rhs (deref lhs)

/-- `operator<=(const T&, const Nullable&)`. -/
def vLe (ops : StoredTypeOps T) (lhs : T) (rhs : Nullable T) : Bool :=
  toBool rhs && !ops.lt (deref rhs) lhs

/-- `operator>=(const Nullable&, const T&)`. -/
def geV (ops : StoredTypeOps T) (lhs : Nullable T) (rhs : T) : Bool :=
  toBool lhs && !ops.lt (deref lhs) rhs

/-- `operator>=(const T&, const Nullable&)`. -/
def vGe (ops : StoredTypeOps T) (lhs : T) (rhs : Nullable T) : Bool :=
  !toBool rhs || !ops.lt lhs (deref rhs)

end Nullable

/-- `makeNullable(value)`. -/
def makeNullable {T : Type} (value : T) : Nullable T :=
  Nullable.ctorValue value

/-- `InitializeResultItemImpl<Nullable<T>>::call(nullable)`:
`nullable = Nullable<T>{inPlace}`, a move assignment from the temporary built
by the in-place constructor with an empty argument pack; `ctor ()` is
`StoredType{}`. -/
def InitializeResultItemImpl.call {T : Type} (ops : StoredTypeOps T) (ctor : Unit → T)
    (nullable : Nullable T) : Nullable T :=
  (Nullable.assignMove ops nullable (Nullable.ctorInPlace ctor ())).1

/-- Operations of `int`: trivially destructible, a moved-from `int` keeps its
value, built-in `==` and `<`. -/
def intOps : StoredTypeOps Int :=
  { isTriviallyDestructible := true, movedFrom := fun x => x,
    eq := fun x y => decide (x = y), lt := fun x y => decide (x < y) }

/-- Operations of a payload type whose `==` is not reflexive, after `double`:
`none` stands for a NaN, which is neither `==` to nor `<` than anything, itself
included; `some k` compares as the integer `k`. -/
def nanOps : StoredTypeOps (Option Int) :=
  { isTriviallyDestructible := true, movedFrom := fun x => x,
    eq := fun x y =>
      match x, y with
      | some a, some b => decide (a = b)
      | _, _ => false,
    lt := fun x y =>
      match x, y with
      | some a, some b => decide (a < b)
      | _, _ => false }

/-- Operations of `std::string` (modelled as `String`): not trivially
destructible, a moved-from string is taken to be empty, `==` and `<` of
strings. -/
def stringOps : StoredTypeOps String :=
  { isTriviallyDestructible := false, movedFrom := fun _ => "",
    eq := fun x y => decide (x = y), lt := fun x y => decide (x < y) }

namespace Nullable

variable {T : Type}

/-! ## Reachable states

States of a container after construction followed by a sequence of public
operations.  Containers that take part in an operation as `other` are reachable
themselves, and so is a source after it has been moved from.  With
`full = false` the operations `unsetNull()` on a disengaged container,
`disengage()` and a `swap` in which a side is disengaged are left out. -/

/-- Reachability of a container state through the public constructors,
assignments and modifiers. -/
inductive Reachable (ops : StoredTypeOps T) (full : Bool) : Nullable T → Prop where
  | ofCtorDefault (slot : T) : Reachable ops full (ctorDefault slot)
  | ofCtorDisengaged (slot : T) : Reachable ops full (ctorDisengaged slot)
  | ofCtorValue (v : T) : Reachable ops full (ctorValue v)
  | ofCtorInPlace {A : Type} (ctor : A → T) (args : A) :
      Reachable ops full (ctorInPlace ctor args)
  | ofCtorCopy (slot : T) {o : Nullable T} :
      Reachable ops full o → Reachable ops full (ctorCopy slot o)
  | ofCtorMove (slot : T) {o : Nullable T} :
      Reachable ops full o → Reachable ops full (ctorMove ops slot o).1
  | ofCtorMoveSource (slot : T) {o : Nullable T} :
      Reachable ops full o → Reachable ops full (ctorMove ops slot o).2
  | ofAssignDisengaged {s : Nullable T} :
      Reachable ops full s → Reachable ops full (assignDisengaged ops s)
  | ofAssignCopy {s o : Nullable T} :
      Reachable ops full s → Reachable ops full o → Reachable ops full (assignCopy ops s o)
  | ofAssignMove {s o : Nullable T} :
      Reachable ops full s → Reachable ops full o →
      Reachable ops full (assignMove ops s o).1
  | ofAssignMoveSource {s o : Nullable T} :
      Reachable ops full s → Reachable ops full o →
      Reachable ops full (assignMove ops s o).2
  | ofAssignValue {s : Nullable T} (v : T) :
      Reachable ops full s → Reachable ops full (assignValue s v)
  | ofEmplace {A : Type} (ctor : A → T) (args : A) {s : Nullable T} :
      Reachable ops full s → Reachable ops full (emplace ops ctor s args)
  | ofEmplaceList {U A : Type} (ctor : List U → A → T) (initializerList : List U)
      (args : A) {s : Nullable T} :
      Reachable ops full s → Reachable ops full (emplaceList ops ctor s initializerList args)
  | ofSetNull {s : Nullable T} :
      Reachable ops full s → Reachable ops full (setNull s)
  | ofUnsetNull {s : Nullable T} :
      (full = true ∨ s.engaged = true) →
      Reachable ops full s → Reachable ops full (unsetNull s)
  | ofDisengage {s : Nullable T} :
      full = true → Reachable ops full s → Reachable ops full (disengage ops s)
  | ofSwap {s o : Nullable T} :
      (full = true ∨ (s.engaged = true ∧ o.engaged = true)) →
      Reachable ops full s → Reachable ops full o → Reachable ops full (swap ops s o).1
  | ofSwapOther {s o : Nullable T} :
      (full = true ∨ (s.engaged = true ∧ o.engaged = true)) →
      Reachable ops full s → Reachable ops full o → Reachable ops full (swap ops s o).2

/-! ## Accesses to the payload slot

The statements of an operation that touch the union member `payload`, in
program order, each with the `engaged` flag its container has at that point. -/

/-- Kind of access: the destructor call `payload.~StoredType()`, a read of
`payload` (copied or moved from), an assignment to `payload`, a placement-new
into the slot. -/
inductive PayloadAccess where
  | destroy
  | read
  | assign
  | construct
deriving DecidableEq, Repr

/-- One access: its kind, whether the slot is the one of `other` (otherwise of
`*this`), and the `engaged` flag of that container when the access happens. -/
structure PayloadEvent where
  access : PayloadAccess
  ofOther : Bool
  engaged : Bool
deriving DecidableEq, Repr

/-- Accesses made by `destroyPayload()` on the container `c`. -/
def destroyPayloadLog (ops : StoredTypeOps T) (ofOther : Bool) (c : Nullable T) :
    List PayloadEvent :=
  if !ops.isTriviallyDestructible then
    [⟨PayloadAccess.destroy, ofOther, c.engaged⟩]
  else
    []

/-- Accesses made by `destroyPayloadIfEngaged()` on the container `c`. -/
def destroyPayloadIfEngagedLog (ops : StoredTypeOps T) (ofOther : Bool) (c : Nullable T) :
    List PayloadEvent :=
  if !ops.isTriviallyDestructible then
    if c.engaged then
      [⟨PayloadAccess.destroy, ofOther, c.engaged⟩]
    else
      []
  else
    []

/-- Accesses made by `operator=(DisengagedOption)`. -/
def assignDisengagedLog (ops : StoredTypeOps T) (self : Nullable T) : List PayloadEvent :=
  destroyPayloadIfEngagedLog ops false self

/-- Accesses made by `operator=(const Nullable& other)`. -/
def assignCopyLog (ops : StoredTypeOps T) (self other : Nullable T) : List PayloadEvent :=
  if self.engaged && other.engaged then
    [⟨PayloadAccess.read, true, other.engaged⟩, ⟨PayloadAccess.assign, false, self.engaged⟩]
  else
    if other.engaged then
      [⟨PayloadAccess.read, true, other.engaged⟩,
       ⟨PayloadAccess.construct, false, self.engaged⟩]
    else
      destroyPayloadLog ops false self

/-- Accesses made by `operator=(Nullable&& other)`. -/
def assignMoveLog (ops : StoredTypeOps T) (self other : Nullable T) : List PayloadEvent :=
  if self.engaged && other.engaged then
    [⟨PayloadAccess.read, true, other.engaged⟩, ⟨PayloadAccess.assign, false, self.engaged⟩]
  else
    if other.engaged then
      [⟨PayloadAccess.read, true, other.engaged⟩,
       ⟨PayloadAccess.construct, false, self.engaged⟩]
    else
      destroyPayloadLog ops false self

/-- Accesses made by `swap(other)`. -/
def swapLog (ops : StoredTypeOps T) (self other : Nullable T) : List PayloadEvent :=
  if self.engaged && other.engaged then
    [⟨PayloadAccess.read, false, self.engaged⟩, ⟨PayloadAccess.read, true, other.engaged⟩,
     ⟨PayloadAccess.assign, false, self.engaged⟩, ⟨PayloadAccess.assign, true, other.engaged⟩]
  else if self.engaged then
    [⟨PayloadAccess.read, false, self.engaged⟩,
     ⟨PayloadAccess.construct, true, other.engaged⟩] ++
      destroyPayloadLog ops false self
  else
    [⟨PayloadAccess.read, true, other.engaged⟩,
     ⟨PayloadAccess.construct, false, self.engaged⟩] ++
      destroyPayloadLog ops true other

/-- Whether every destructor call, read and assignment of a log happens on an
engaged container. -/
def onlyWhileEngaged (log : List PayloadEvent) : Bool :=
  log.all fun e => e.access == PayloadAccess.construct || e.engaged

end Nullable

/-! ## Theorems -/

namespace Nullable

variable {T : Type}

/-- C1: the checked accessor `value()` leaves the container as it was; it
returns a payload exactly when the container is valid, and then it is the stored
payload; on an invalid container it throws `BadNullableAccess`, in particular
on a disengaged container and on an engaged container that is marked null. -/
theorem value_checked (self : Nullable T) :
    (value self).2 = self ∧
    (isValid self = true ↔ (self.engaged = true ∧ self.null = false)) ∧
    ((∃ x, (value self).1 = Except.ok x) ↔ isValid self = true) ∧
    (isValid self = true → (value self).1 = Except.ok self.payload) ∧
    (isValid self = false → (value self).1 =
      Except.error ⟨"Attempt to access value of a invalid nullable object!"⟩) ∧
    (self.engaged = false → (value self).1 =
      Except.error ⟨"Attempt to access value of a invalid nullable object!"⟩) ∧
    (self.engaged = true → self.null = true → (value self).1 =
      Except.error ⟨"Attempt to access value of a invalid nullable object!"⟩) := by
  obtain ⟨p, e, n⟩ := self
  cases e <;> cases n <;> simp [value, isValid]

/-- C1 at concrete containers: a valid `Nullable<int>` holding 5 yields 5, a
default-constructed one and an engaged one marked null throw. -/
theorem value_checked_witness :
    (value (ctorValue (5 : Int))).1 = Except.ok 5 ∧
    (value (ctorDefault (0 : Int))).1 =
      Except.error ⟨"Attempt to access value of a invalid nullable object!"⟩ ∧
    (value (setNull (ctorValue (5 : Int)))).1 =
      Except.error ⟨"Attempt to access value of a invalid nullable object!"⟩ :=
  ⟨(value_checked (ctorValue (5 : Int))).2.2.2.1 rfl,
   (value_checked (ctorDefault (0 : Int))).2.2.2.2.2.1 rfl,
   (value_checked (setNull (ctorValue (5 : Int)))).2.2.2.2.2.2 rfl rfl⟩

/-- C2, as stated, fails: applied to a default-constructed `Nullable<int>` the
hook leaves the container engaged with payload `int{}` and `null = false`, so
the container is valid right after the call. -/
theorem call_result_not_null :
    InitializeResultItemImpl.call intOps (fun _ => 0) (ctorDefault 7) = ⟨0, true, false⟩ ∧
    ¬ ((InitializeResultItemImpl.call intOps (fun _ => 0) (ctorDefault 7)).null = true) ∧
    isValid (InitializeResultItemImpl.call intOps (fun _ => 0) (ctorDefault 7)) = true := by
  decide

/-- C2 amended: applied to a container in any prior state, the hook
`InitializeResultItemImpl<Nullable<T>>::call` leaves the container engaged,
holding a default-constructed `T`, with `null = false`, hence valid. -/
theorem call_result_engaged_default_valid (ops : StoredTypeOps T) (ctor : Unit → T)
    (nullable : Nullable T) :
    (InitializeResultItemImpl.call ops ctor nullable).engaged = true ∧
    (InitializeResultItemImpl.call ops ctor nullable).payload = ctor () ∧
    (InitializeResultItemImpl.call ops ctor nullable).null = false ∧
    isValid (InitializeResultItemImpl.call ops ctor nullable) = true := by
  obtain ⟨p, e, n⟩ := nullable
  cases e <;>
    simp [InitializeResultItemImpl.call, assignMove, ctorInPlace, constructPayload, isValid]

/-- C3 fails on the code for a trivially destructible payload: `disengage()` on
a valid `Nullable<int>` holding 5 leaves it engaged, valid and readable, and
so does it for every trivially destructible `StoredType`, where `disengage()`
only clears `null`.  For a `StoredType` that is not trivially destructible the
container ends disengaged with `null = false`. -/
theorem disengage_trivially_destructible_stays_engaged :
    disengage intOps (ctorValue 5) = ⟨5, true, false⟩ ∧
    isValid (disengage intOps (ctorValue 5)) = true ∧
    (value (disengage intOps (ctorValue 5))).1 = Except.ok 5 ∧
    (∀ (U : Type) (ops : StoredTypeOps U) (self : Nullable U),
      ops.isTriviallyDestructible = true →
        disengage ops self = { self with null := false }) ∧
    (∀ (U : Type) (ops : StoredTypeOps U) (self : Nullable U),
      ops.isTriviallyDestructible = false →
        (disengage ops self).engaged = false ∧ (disengage ops self).null = false ∧
        isValid (disengage ops self) = false) := by
  refine ⟨by decide, by decide, rfl, ?_, ?_⟩
  · intro U ops self h
    simp [disengage, destroyPayloadIfEngaged, h]
  · intro U ops self h
    obtain ⟨p, e, n⟩ := self
    cases e <;> simp [disengage, destroyPayloadIfEngaged, h, isValid]

/-- C4 fails on the code for a trivially destructible payload: assigning the
disengaged sentinel to a valid `Nullable<int>` holding 5 leaves it engaged
with `null = true`, so that a following `unsetNull()` makes it valid again with
payload 5; for every trivially destructible `StoredType` the assignment only
sets `null`.  For a `StoredType` that is not trivially destructible the
container ends disengaged with `null = true` and stays invalid after
`unsetNull()`. -/
theorem assignDisengaged_trivially_destructible_stays_engaged :
    assignDisengaged intOps (ctorValue 5) = ⟨5, true, true⟩ ∧
    isValid (unsetNull (assignDisengaged intOps (ctorValue 5))) = true ∧
    (value (unsetNull (assignDisengaged intOps (ctorValue 5)))).1 = Except.ok 5 ∧
    (∀ (U : Type) (ops : StoredTypeOps U) (self : Nullable U),
      ops.isTriviallyDestructible = true →
        assignDisengaged ops self = { self with null := true }) ∧
    (∀ (U : Type) (ops : StoredTypeOps U) (self : Nullable U),
      ops.isTriviallyDestructible = false →
        (assignDisengaged ops self).engaged = false ∧
        (assignDisengaged ops self).null = true ∧
        isValid (unsetNull (assignDisengaged ops self)) = false) := by
  refine ⟨by decide, by decide, rfl, ?_, ?_⟩
  · intro U ops self h
    simp [assignDisengaged, destroyPayloadIfEngaged, h]
  · intro U ops self h
    obtain ⟨p, e, n⟩ := self
    cases e <;> simp [assignDisengaged, destroyPayloadIfEngaged, h, isValid, unsetNull]

/-- C5 fails on the code: swapping a valid `Nullable<int>` holding 1 with an
engaged, null-marked one holding 2 exchanges the payloads and leaves each null
flag where it was, so that the first is valid afterwards although the second
was invalid before.  For all engaged containers `swap` exchanges the payloads
and changes neither null flag. -/
theorem swap_both_engaged_keeps_null_flags :
    swap intOps ⟨1, true, false⟩ ⟨2, true, true⟩ = (⟨2, true, false⟩, ⟨1, true, true⟩) ∧
    isValid (swap intOps ⟨1, true, false⟩ ⟨2, true, true⟩).1 = true ∧
    isValid (⟨2, true, true⟩ : Nullable Int) = false ∧
    (∀ (U : Type) (ops : StoredTypeOps U) (a b : Nullable U),
      a.engaged = true → b.engaged = true →
        swap ops a b = (⟨b.payload, true, a.null⟩, ⟨a.payload, true, b.null⟩)) := by
  refine ⟨by decide, by decide, by decide, ?_⟩
  intro U ops a b ha hb
  obtain ⟨pa, ea, na⟩ := a
  obtain ⟨pb, eb, nb⟩ := b
  simp only at ha hb
  subst ha hb
  simp [swap]

/-- C6: for an engaged container `a` and a disengaged container `b`, after
`a.swap(b)`, and likewise after `b.swap(a)`, `a` is disengaged with
`null = false` and `b` is engaged, holds the former payload of `a` and has the
former null flag of `a`. -/
theorem swap_engaged_with_disengaged (ops : StoredTypeOps T) (a b : Nullable T)
    (ha : a.engaged = true) (hb : b.engaged = false) :
    ((swap ops a b).1.engaged = false ∧ (swap ops a b).1.null = false ∧
      (swap ops a b).2.engaged = true ∧ (swap ops a b).2.payload = a.payload ∧
      (swap ops a b).2.null = a.null) ∧
    ((swap ops b a).2.engaged = false ∧ (swap ops b a).2.null = false ∧
      (swap ops b a).1.engaged = true ∧ (swap ops b a).1.payload = a.payload ∧
      (swap ops b a).1.null = a.null) := by
  obtain ⟨pa, ea, na⟩ := a
  obtain ⟨pb, eb, nb⟩ := b
  simp only at ha hb
  subst ha hb
  simp [swap, constructPayload, destroyPayload]

/-- C6 at a null-marked `Nullable<std::string>` holding "x" and a
default-constructed one. -/
theorem swap_engaged_with_disengaged_witness :
    (⟨"x", true, true⟩ : Nullable String).engaged = true ∧
    (ctorDefault "" : Nullable String).engaged = false ∧
    (((swap stringOps ⟨"x", true, true⟩ (ctorDefault "")).1.engaged = false ∧
      (swap stringOps ⟨"x", true, true⟩ (ctorDefault "")).1.null = false ∧
      (swap stringOps ⟨"x", true, true⟩ (ctorDefault "")).2.engaged = true ∧
      (swap stringOps ⟨"x", true, true⟩ (ctorDefault "")).2.payload = "x" ∧
      (swap stringOps ⟨"x", true, true⟩ (ctorDefault "")).2.null = true) ∧
     ((swap stringOps (ctorDefault "") ⟨"x", true, true⟩).2.engaged = false ∧
      (swap stringOps (ctorDefault "") ⟨"x", true, true⟩).2.null = false ∧
      (swap stringOps (ctorDefault "") ⟨"x", true, true⟩).1.engaged = true ∧
      (swap stringOps (ctorDefault "") ⟨"x", true, true⟩).1.payload = "x" ∧
      (swap stringOps (ctorDefault "") ⟨"x", true, true⟩).1.null = true)) :=
  ⟨rfl, rfl, swap_engaged_with_disengaged stringOps ⟨"x", true, true⟩ (ctorDefault "") rfl rfl⟩

/-- C7, as stated, fails for a payload type whose `==` is not reflexive: after
copy- or move-assigning a valid container holding a NaN to a
default-constructed one, the destination is valid with the same payload and yet
does not compare `==` to the source, neither as it was before the assignment
nor as the move leaves it. -/
theorem assign_result_not_eq_source :
    assignCopy nanOps (ctorDefault (some 0)) (ctorValue none) = ⟨none, true, false⟩ ∧
    eq nanOps (assignCopy nanOps (ctorDefault (some 0)) (ctorValue none)) (ctorValue none) =
      false ∧
    (assignMove nanOps (ctorDefault (some 0)) (ctorValue none)).1 = ⟨none, true, false⟩ ∧
    eq nanOps (assignMove nanOps (ctorDefault (some 0)) (ctorValue none)).1
      (ctorValue none) = false ∧
    eq nanOps (assignMove nanOps (ctorDefault (some 0)) (ctorValue none)).1
      (assignMove nanOps (ctorDefault (some 0)) (ctorValue none)).2 = false := by
  decide

/-- C7 amended: for every destination `d` and source `s`, after the copy
assignment `d = s` and after the move assignment `d = std::move(s)` the
destination is, when `s` is engaged, engaged with the payload and the null flag
of `s`, and, when `s` is disengaged, disengaged with `null = true`; hence it is
valid exactly when `s` is.  It compares `==` to `s` exactly when `s` is invalid
or the payload of `s` is `==` to itself under `T`'s `==`, so always when that
`==` is reflexive; after a move this is the comparison with `s` as it was
before, and against the moved-from `s` it holds exactly when `s` is invalid or
the former payload is `==` to the moved-from one. -/
theorem assign_mirrors_source (ops : StoredTypeOps T) (d s : Nullable T) :
    ((s.engaged = true → (assignCopy ops d s).engaged = true ∧
        (assignCopy ops d s).payload = s.payload ∧ (assignCopy ops d s).null = s.null) ∧
      (s.engaged = false → (assignCopy ops d s).engaged = false ∧
        (assignCopy ops d s).null = true) ∧
      isValid (assignCopy ops d s) = isValid s ∧
      eq ops (assignCopy ops d s) s = (!isValid s || ops.eq s.payload s.payload) ∧
      ((∀ x, ops.eq x x = true) → eq ops (assignCopy ops d s) s = true)) ∧
    ((s.engaged = true → (assignMove ops d s).1.engaged = true ∧
        (assignMove ops d s).1.payload = s.payload ∧ (assignMove ops d s).1.null = s.null) ∧
      (s.engaged = false → (assignMove ops d s).1.engaged = false ∧
        (assignMove ops d s).1.null = true) ∧
      isValid (assignMove ops d s).1 = isValid s ∧
      eq ops (assignMove ops d s).1 s = (!isValid s || ops.eq s.payload s.payload) ∧
      ((∀ x, ops.eq x x = true) → eq ops (assignMove ops d s).1 s = true) ∧
      eq ops (assignMove ops d s).1 (assignMove ops d s).2 =
        (!isValid s || ops.eq s.payload (ops.movedFrom s.payload))) := by
  obtain ⟨pd, ed, nd⟩ := d
  obtain ⟨ps, es, ns⟩ := s
  cases ed <;> cases es <;> cases ns <;>
    simp +contextual [assignCopy, assignMove, constructPayload, destroyPayload, isValid,
      eq, toBool, deref]

/-- C7 amended, at `Nullable<int>`, whose `==` is reflexive: a valid source
holding 3 assigned to a default-constructed destination. -/
theorem assign_mirrors_source_witness :
    (∀ x, intOps.eq x x = true) ∧
    (assignCopy intOps (ctorDefault 0) (ctorValue 3)).payload = 3 ∧
    isValid (assignCopy intOps (ctorDefault 0) (ctorValue 3)) = true ∧
    eq intOps (assignCopy intOps (ctorDefault 0) (ctorValue 3)) (ctorValue 3) = true ∧
    eq intOps (assignMove intOps (ctorDefault 0) (ctorValue 3)).1 (ctorValue 3) = true :=
  have hrefl : ∀ x, intOps.eq x x = true := fun x => by simp [intOps]
  have h := assign_mirrors_source intOps (ctorDefault 0) (ctorValue 3)
  ⟨hrefl, (h.1.1 rfl).2.1, h.1.2.2.1, h.1.2.2.2.2 hrefl, h.2.2.2.2.2.1 hrefl⟩

/-- C8: for every prior state and every argument list, after `emplace(args...)`
(and after the initializer-list overload) the container is engaged with
`null = false` and `value()` returns `T{args...}`. -/
theorem emplace_then_value {A U : Type} (ops : StoredTypeOps T) (ctor : A → T)
    (ctorList : List U → A → T) (self : Nullable T) (args : A) (initializerList : List U) :
    ((emplace ops ctor self args).engaged = true ∧
      (emplace ops ctor self args).null = false ∧
      (value (emplace ops ctor self args)).1 = Except.ok (ctor args)) ∧
    ((emplaceList ops ctorList self initializerList args).engaged = true ∧
      (emplaceList ops ctorList self initializerList args).null = false ∧
      (value (emplaceList ops ctorList self initializerList args)).1 =
        Except.ok (ctorList initializerList args)) := by
  simp [emplace, emplaceList, constructPayload, value, isValid]

/-- C9: `setNull()` changes neither `engaged` nor the payload; on a disengaged
container it changes nothing; on an engaged container it sets `null`, so the
container is invalid, and a following `unsetNull()` makes it valid with
`value()` the same payload. -/
theorem setNull_frame (self : Nullable T) :
    (setNull self).engaged = self.engaged ∧
    (setNull self).payload = self.payload ∧
    (self.engaged = false → setNull self = self) ∧
    (self.engaged = true →
      setNull self = ⟨self.payload, true, true⟩ ∧
      isValid (setNull self) = false ∧
      isValid (unsetNull (setNull self)) = true ∧
      (value (unsetNull (setNull self))).1 = Except.ok self.payload) := by
  obtain ⟨p, e, n⟩ := self
  cases e <;> simp [setNull, unsetNull, isValid, value]

/-- C9 on the scenario `Nullable<int> a; a.emplace(5); a.setNull();
a.unsetNull();`: the container is valid again and `a.value() == 5`. -/
theorem setNull_frame_witness :
    isValid (setNull (emplace intOps (fun x => x) (ctorDefault 0) 5)) = false ∧
    isValid (unsetNull (setNull (emplace intOps (fun x => x) (ctorDefault 0) 5))) = true ∧
    (value (unsetNull (setNull (emplace intOps (fun x => x) (ctorDefault 0) 5)))).1 =
      Except.ok 5 :=
  have h := (setNull_frame (emplace intOps (fun x => x) (ctorDefault 0) 5)).2.2.2 rfl
  ⟨h.2.1, h.2.2.1, h.2.2.2⟩

/-- C10: a default-constructed container and one constructed from the
disengaged sentinel are disengaged with `null = true` and invalid, compare `==`
to the disengaged sentinel in both argument orders, and compare `!=` and not
`==` to every raw value in both argument orders, whatever `T`'s `==` is. -/
theorem ctorDefault_disengaged (ops : StoredTypeOps T) (slot v : T) :
    ((ctorDefault slot).engaged = false ∧ (ctorDefault slot).null = true ∧
      isValid (ctorDefault slot) = false ∧
      eqD (ctorDefault slot) = true ∧ dEq (ctorDefault slot) = true ∧
      neV ops (ctorDefault slot) v = true ∧ vNe ops v (ctorDefault slot) = true ∧
      eqV ops (ctorDefault slot) v = false ∧ vEq ops v (ctorDefault slot) = false) ∧
    ((ctorDisengaged slot).engaged = false ∧ (ctorDisengaged slot).null = true ∧
      isValid (ctorDisengaged slot) = false ∧
      eqD (ctorDisengaged slot) = true ∧ dEq (ctorDisengaged slot) = true ∧
      neV ops (ctorDisengaged slot) v = true ∧ vNe ops v (ctorDisengaged slot) = true ∧
      eqV ops (ctorDisengaged slot) v = false ∧ vEq ops v (ctorDisengaged slot) = false) := by
  simp [ctorDisengaged, ctorDefault, isValid, toBool, eqD, dEq, neV, vNe, eqV, vEq]

/-- C11: `a == b` holds iff `a.isValid() == b.isValid()` and, when both are
valid, the payloads are equal under `T`'s `==`; any two invalid containers are
equal whatever their `engaged` flags and stored payloads are; `!=` is the
negation. -/
theorem eq_iff_same_validity_and_payload (ops : StoredTypeOps T) (a b : Nullable T) :
    (eq ops a b = true ↔
      (isValid a = isValid b ∧
        (isValid a = true → isValid b = true → ops.eq a.payload b.payload = true))) ∧
    (isValid a = false → isValid b = false → eq ops a b = true) ∧
    ne ops a b = !eq ops a b := by
  obtain ⟨pa, ea, na⟩ := a
  obtain ⟨pb, eb, nb⟩ := b
  cases ea <;> cases na <;> cases eb <;> cases nb <;>
    simp [eq, ne, toBool, isValid, deref]

/-- C12: `a < b` holds iff `b` is valid and (`a` is invalid or
`payload(a) < payload(b)` under `T`'s `<`); so an invalid container is less
than every valid one and not conversely, no container is less than an invalid
one, and two valid containers order as their payloads do. -/
theorem lt_iff_valid_and_payload (ops : StoredTypeOps T) (a b : Nullable T) :
    (lt ops a b = true ↔
      (isValid b = true ∧ (isValid a = false ∨ ops.lt a.payload b.payload = true))) ∧
    (isValid a = false → isValid b = true → lt ops a b = true ∧ lt ops b a = false) ∧
    (isValid b = false → lt ops a b = false) ∧
    (isValid a = true → isValid b = true → lt ops a b = ops.lt a.payload b.payload) := by
  obtain ⟨pa, ea, na⟩ := a
  obtain ⟨pb, eb, nb⟩ := b
  cases ea <;> cases na <;> cases eb <;> cases nb <;>
    simp [lt, toBool, isValid, deref]

/-- C13: when `T`'s `==` and `<` satisfy trichotomy (for all `x`, `y` exactly
one of `x < y`, `x == y`, `y < x`), then for all containers `a` and `b`, in any
states, exactly one of `a < b`, `a == b`, `b < a` holds. -/
theorem trichotomy (ops : StoredTypeOps T) (a b : Nullable T)
    (htri : ∀ x y,
      (ops.lt x y = true ∧ ops.eq x y = false ∧ ops.lt y x = false) ∨
      (ops.lt x y = false ∧ ops.eq x y = true ∧ ops.lt y x = false) ∨
      (ops.lt x y = false ∧ ops.eq x y = false ∧ ops.lt y x = true)) :
    (lt ops a b = true ∧ eq ops a b = false ∧ lt ops b a = false) ∨
    (lt ops a b = false ∧ eq ops a b = true ∧ lt ops b a = false) ∨
    (lt ops a b = false ∧ eq ops a b = false ∧ lt ops b a = true) := by
  obtain ⟨pa, ea, na⟩ := a
  obtain ⟨pb, eb, nb⟩ := b
  have h := htri pa pb
  cases ea <;> cases na <;> cases eb <;> cases nb <;>
    simp [lt, eq, toBool, isValid, deref]
  exact h

/-- C13 at `Nullable<int>`: the built-in `==` and `<` of `int` satisfy
trichotomy, and a null-marked container holding 9 is less than a valid one
holding 2. -/
theorem trichotomy_witness :
    (∀ x y,
      (intOps.lt x y = true ∧ intOps.eq x y = false ∧ intOps.lt y x = false) ∨
      (intOps.lt x y = false ∧ intOps.eq x y = true ∧ intOps.lt y x = false) ∨
      (intOps.lt x y = false ∧ intOps.eq x y = false ∧ intOps.lt y x = true)) ∧
    ((lt intOps ⟨9, true, true⟩ (ctorValue 2) = true ∧
        eq intOps ⟨9, true, true⟩ (ctorValue 2) = false ∧
        lt intOps (ctorValue 2) ⟨9, true, true⟩ = false) ∨
      (lt intOps ⟨9, true, true⟩ (ctorValue 2) = false ∧
        eq intOps ⟨9, true, true⟩ (ctorValue 2) = true ∧
        lt intOps (ctorValue 2) ⟨9, true, true⟩ = false) ∨
      (lt intOps ⟨9, true, true⟩ (ctorValue 2) = false ∧
        eq intOps ⟨9, true, true⟩ (ctorValue 2) = false ∧
        lt intOps (ctorValue 2) ⟨9, true, true⟩ = true)) :=
  have htri : ∀ x y : Int,
      (intOps.lt x y = true ∧ intOps.eq x y = false ∧ intOps.lt y x = false) ∨
      (intOps.lt x y = false ∧ intOps.eq x y = true ∧ intOps.lt y x = false) ∨
      (intOps.lt x y = false ∧ intOps.eq x y = false ∧ intOps.lt y x = true) := by
    intro x y
    simp only [intOps, decide_eq_true_eq, decide_eq_false_iff_not]
    omega
  ⟨htri, trichotomy intOps ⟨9, true, true⟩ (ctorValue 2) htri⟩

/-- C14: against the disengaged sentinel `s`, `n == s` and `s == n` hold iff
`n` is invalid; `s <= n` always holds, `n < s` never holds, and `s < n` holds
iff `n` is valid, so a container that is not strictly above `s` is equal to
it; likewise `n >= s` always holds, `s > n` never holds and `n > s` holds iff
`n` is valid. -/
theorem sentinel_is_minimum (n : Nullable T) :
    (eqD n = true ↔ isValid n = false) ∧
    (dEq n = true ↔ isValid n = false) ∧
    dLe n = true ∧
    ltD n = false ∧
    (dLt n = true ↔ isValid n = true) ∧
    (dLt n = false → eqD n = true ∧ dEq n = true) ∧
    geD n = true ∧
    dGt n = false ∧
    (gtD n = true ↔ isValid n = true) := by
  obtain ⟨p, e, nl⟩ := n
  cases e <;> cases nl <;>
    simp [eqD, dEq, dLe, ltD, dLt, geD, dGt, gtD, toBool, isValid]

/-- C15: against a raw value `v`, `n == v` holds iff `n` is valid and
`payload(n) == v`, and `v == n` holds iff `n` is valid and `v == payload(n)`
(`T`'s `==` applied in the order of the operands); whenever `n` is invalid,
`n < v`, `n <= v`, `v > n` and `v >= n` hold and `n > v`, `n >= v`, `v < n`
and `v <= n` are false, for every `v`. -/
theorem raw_value_comparisons (ops : StoredTypeOps T) (n : Nullable T) (v : T) :
    (eqV ops n v = true ↔ (isValid n = true ∧ ops.eq n.payload v = true)) ∧
    (vEq ops v n = true ↔ (isValid n = true ∧ ops.eq v n.payload = true)) ∧
    (isValid n = false →
      ltV ops n v = true ∧ leV ops n v = true ∧ vGt ops v n = true ∧ vGe ops v n = true ∧
      gtV ops n v = false ∧ geV ops n v = false ∧ vLt ops v n = false ∧
      vLe ops v n = false) := by
  obtain ⟨p, e, nl⟩ := n
  cases e <;> cases nl <;>
    simp [eqV, vEq, ltV, leV, vGt, vGe, gtV, geV, vLt, vLe, toBool, isValid, deref]

/-- C16, as stated, fails: `unsetNull()` on a default-constructed container,
`disengage()` on a valid `Nullable<std::string>` and `swap` of a valid
container with a default-constructed one each reach a state with
`engaged = false` and `null = false`; so the invariant does not hold over all
public operations. -/
theorem disengaged_not_null_reachable :
    (Reachable intOps true (unsetNull (ctorDefault 0)) ∧
      unsetNull (ctorDefault (0 : Int)) = ⟨0, false, false⟩) ∧
    (Reachable stringOps true (disengage stringOps (ctorValue "x")) ∧
      disengage stringOps (ctorValue "x") = ⟨"x", false, false⟩) ∧
    (Reachable intOps true (swap intOps (ctorValue 1) (ctorDefault 0)).1 ∧
      (swap intOps (ctorValue 1) (ctorDefault 0)).1 = ⟨1, false, false⟩) ∧
    ¬ (∀ s, Reachable intOps true s → s.engaged = false → s.null = true) := by
  have h1 : Reachable intOps true (unsetNull (ctorDefault 0)) :=
    Reachable.ofUnsetNull (Or.inl rfl) (Reachable.ofCtorDefault 0)
  have h2 : Reachable stringOps true (disengage stringOps (ctorValue "x")) :=
    Reachable.ofDisengage rfl (Reachable.ofCtorValue "x")
  have h3 : Reachable intOps true (swap intOps (ctorValue 1) (ctorDefault 0)).1 :=
    Reachable.ofSwap (Or.inl rfl) (Reachable.ofCtorValue 1) (Reachable.ofCtorDefault 0)
  refine ⟨⟨h1, rfl⟩, ⟨h2, rfl⟩, ⟨h3, rfl⟩, ?_⟩
  intro hall
  have hnull := hall _ h1 rfl
  simp [unsetNull, ctorDefault] at hnull

/-- C16 amended: in every state reachable from a freshly constructed container
by any sequence of assignments, `emplace`, `setNull`, `unsetNull` on an engaged
container and `swap` of two engaged containers (that is, without `unsetNull()`
on a disengaged container, `disengage()` and a `swap` in which a side is
disengaged), `engaged == false` implies `null == true`. -/
theorem disengaged_implies_null (ops : StoredTypeOps T) (s : Nullable T)
    (h : Reachable ops false s) (he : s.engaged = false) : s.null = true := by
  have key : s.engaged = false → s.null = true := by
    induction h with
    | ofCtorDefault slot => simp [ctorDefault]
    | ofCtorDisengaged slot => simp [ctorDisengaged, ctorDefault]
    | ofCtorValue v => simp [ctorValue]
    | ofCtorInPlace ctor args => simp [ctorInPlace]
    | @ofCtorCopy slot o _ ih =>
      obtain ⟨p, e, n⟩ := o
      cases e <;> simp_all [ctorCopy, constructPayload]
    | @ofCtorMove slot o _ ih =>
      obtain ⟨p, e, n⟩ := o
      cases e <;> simp_all [ctorMove, constructPayload]
    | @ofCtorMoveSource slot o _ ih =>
      obtain ⟨p, e, n⟩ := o
      cases e <;> simp_all [ctorMove, constructPayload]
    | @ofAssignDisengaged s _ ih => simp [assignDisengaged]
    | @ofAssignCopy s o _ _ ihs iho =>
      obtain ⟨ps, es, ns⟩ := s
      obtain ⟨po, eo, no⟩ := o
      cases es <;> cases eo <;> simp_all [assignCopy, constructPayload, destroyPayload]
    | @ofAssignMove s o _ _ ihs iho =>
      obtain ⟨ps, es, ns⟩ := s
      obtain ⟨po, eo, no⟩ := o
      cases es <;> cases eo <;> simp_all [assignMove, constructPayload, destroyPayload]
    | @ofAssignMoveSource s o _ _ ihs iho =>
      obtain ⟨ps, es, ns⟩ := s
      obtain ⟨po, eo, no⟩ := o
      cases es <;> cases eo <;> simp_all [assignMove, constructPayload, destroyPayload]
    | @ofAssignValue s v _ ih =>
      obtain ⟨ps, es, ns⟩ := s
      cases es <;> simp [assignValue, constructPayload]
    | ofEmplace ctor args _ ih => simp [emplace, constructPayload]
    | ofEmplaceList ctor initializerList args _ ih => simp [emplaceList, constructPayload]
    | @ofSetNull s _ ih =>
      obtain ⟨ps, es, ns⟩ := s
      cases es <;> simp_all [setNull]
    | @ofUnsetNull s hf _ ih =>
      rcases hf with hf | h1
      · cases hf
      · simp [unsetNull, h1]
    | ofDisengage hf _ _ => cases hf
    | @ofSwap s o hf _ _ ihs iho =>
      rcases hf with hf | ⟨h1, h2⟩
      · cases hf
      · simp [swap, h1, h2]
    | @ofSwapOther s o hf _ _ ihs iho =>
      rcases hf with hf | ⟨h1, h2⟩
      · cases hf
      · simp [swap, h1, h2]
  exact key he

/-- C16 amended, at a valid `Nullable<int>` on which `unsetNull()` is called
and to which a default-constructed container is then copy-assigned: the result
is disengaged and marked null. -/
theorem disengaged_implies_null_witness :
    Reachable intOps false
      (assignCopy intOps (unsetNull (ctorValue 3)) (ctorDefault 0)) ∧
    (assignCopy intOps (unsetNull (ctorValue 3)) (ctorDefault 0)).engaged = false ∧
    (assignCopy intOps (unsetNull (ctorValue 3)) (ctorDefault 0)).null = true :=
  have hr : Reachable intOps false
      (assignCopy intOps (unsetNull (ctorValue 3)) (ctorDefault 0)) :=
    Reachable.ofAssignCopy (Reachable.ofUnsetNull (Or.inr rfl) (Reachable.ofCtorValue 3))
      (Reachable.ofCtorDefault 0)
  ⟨hr, rfl, disengaged_implies_null intOps _ hr rfl⟩

/-- C17 fails on the code: copy- and move-assigning a default-constructed
`Nullable<std::string>` to a default-constructed one runs `destroyPayload()`,
which calls the destructor on the slot of the disengaged destination, and
swapping two default-constructed containers reads the payload of the
disengaged `other` (and, for `std::string`, then calls its destructor); the
sentinel assignment on the same destination touches nothing. -/
theorem assign_and_swap_touch_disengaged_payload :
    assignCopyLog stringOps (ctorDefault "") (ctorDefault "") =
      [⟨PayloadAccess.destroy, false, false⟩] ∧
    assignMoveLog stringOps (ctorDefault "") (ctorDefault "") =
      [⟨PayloadAccess.destroy, false, false⟩] ∧
    swapLog stringOps (ctorDefault "") (ctorDefault "") =
      [⟨PayloadAccess.read, true, false⟩, ⟨PayloadAccess.construct, false, false⟩,
       ⟨PayloadAccess.destroy, true, false⟩] ∧
    swapLog intOps (ctorDefault 0) (ctorDefault 0) =
      [⟨PayloadAccess.read, true, false⟩, ⟨PayloadAccess.construct, false, false⟩] ∧
    onlyWhileEngaged (assignCopyLog stringOps (ctorDefault "") (ctorDefault "")) = false ∧
    onlyWhileEngaged (assignMoveLog stringOps (ctorDefault "") (ctorDefault "")) = false ∧
    onlyWhileEngaged (swapLog stringOps (ctorDefault "") (ctorDefault "")) = false ∧
    onlyWhileEngaged (swapLog intOps (ctorDefault 0) (ctorDefault 0)) = false ∧
    assignDisengagedLog stringOps (ctorDefault "") = [] := by
  decide

/-- C18 fails on the code: swapping a default-constructed `Nullable<int>` with
one on which `disengage()` was called leaves the first engaged and valid, and
swapping two default-constructed ones leaves the first engaged and marked
null; for all disengaged `a` and `b`, after `a.swap(b)` `a` is engaged with the
former null flag of `b`, and `b` is disengaged with `null = false`. -/
theorem swap_both_disengaged_engages_self :
    swap intOps (ctorDefault 0) (disengage intOps (ctorDefault 7)) =
      (⟨7, true, false⟩, ⟨7, false, false⟩) ∧
    isValid (swap intOps (ctorDefault 0) (disengage intOps (ctorDefault 7))).1 = true ∧
    swap intOps (ctorDefault 0) (ctorDefault 7) = (⟨7, true, true⟩, ⟨7, false, false⟩) ∧
    (∀ (U : Type) (ops : StoredTypeOps U) (a b : Nullable U),
      a.engaged = false → b.engaged = false →
        (swap ops a b).1.engaged = true ∧ (swap ops a b).1.null = b.null ∧
        isValid (swap ops a b).1 = !b.null ∧
        (swap ops a b).2.engaged = false ∧ (swap ops a b).2.null = false) := by
  refine ⟨by decide, by decide, by decide, ?_⟩
  intro U ops a b ha hb
  obtain ⟨pa, ea, na⟩ := a
  obtain ⟨pb, eb, nb⟩ := b
  simp only at ha hb
  subst ha hb
  simp [swap, constructPayload, destroyPayload, isValid]

/-- C19: each of the six operators between a container `n` and a raw value `v`
gives, in both argument orders, what the operator between two containers gives
on `n` and `Nullable(v)`, whatever `T`'s `==` and `<` are. -/
theorem raw_value_family_is_wrapped_family (ops : StoredTypeOps T) (n : Nullable T)
    (v : T) :
    (eqV ops n v = eq ops n (ctorValue v) ∧ vEq ops v n = eq ops (ctorValue v) n) ∧
    (neV ops n v = ne ops n (ctorValue v) ∧ vNe ops v n = ne ops (ctorValue v) n) ∧
    (ltV ops n v = lt ops n (ctorValue v) ∧ vLt ops v n = lt ops (ctorValue v) n) ∧
    (gtV ops n v = gt ops n (ctorValue v) ∧ vGt ops v n = gt ops (ctorValue v) n) ∧
    (leV ops n v = le ops n (ctorValue v) ∧ vLe ops v n = le ops (ctorValue v) n) ∧
    (geV ops n v = ge ops n (ctorValue v) ∧ vGe ops v n = ge ops (ctorValue v) n) := by
  obtain ⟨p, e, nl⟩ := n
  cases e <;> cases nl <;>
    simp [eqV, vEq, neV, vNe, ltV, vLt, gtV, vGt, leV, vLe, geV, vGe, eq, ne, lt, gt, le,
      ge, ctorValue, toBool, isValid, deref]

/-- C20: in each of the three comparison families, and in both argument
orders, `x != y` is the negation of `x == y`, `x > y` is `y < x`, `x <= y` is
the negation of `y < x`, and `x >= y` is the negation of `x < y`, whatever
`T`'s `==` and `<` are. -/
theorem operators_coherent (ops : StoredTypeOps T) (a b : Nullable T) (v : T) :
    (ne ops a b = !eq ops a b ∧ gt ops a b = lt ops b a ∧
      le ops a b = !lt ops b a ∧ ge ops a b = !lt ops a b) ∧
    (neD a = !eqD a ∧ gtD a = dLt a ∧ leD a = !dLt a ∧ geD a = !ltD a) ∧
    (dNe a = !dEq a ∧ dGt a = ltD a ∧ dLe a = !ltD a ∧ dGe a = !dLt a) ∧
    (neV ops a v = !eqV ops a v ∧ gtV ops a v = vLt ops v a ∧
      leV ops a v = !vLt ops v a ∧ geV ops a v = !ltV ops a v) ∧
    (vNe ops v a = !vEq ops v a ∧ vGt ops v a = ltV ops a v ∧
      vLe ops v a = !ltV ops a v ∧ vGe ops v a = !vLt ops v a) := by
  obtain ⟨pa, ea, na⟩ := a
  cases ea <;> cases na <;>
    simp [ne, gt, le, ge, neD, eqD, gtD, dLt, leD, geD, ltD, dNe, dEq, dGt, dLe, dGe, neV,
      eqV, gtV, vLt, leV, geV, ltV, vNe, vEq, vGt, vLe, vGe, toBool, isValid, deref]

end Nullable

end SuperiorMySqlpp
